import Mathlib

/-!
Shallow embedding of the boxing matchup-and-scoring core
(`boxing/models/boxers_model.py` and `boxing/models/ring_model.py`):
the competitor registry backed by a `boxers` table, and the two-slot
ring with its logistic outcome rule.  Machine floats of the source are
modelled as `ℚ` for the stored attributes and skill arithmetic, and as
`ℝ` where the source applies `math.e ** (-delta)`.  Fallible Python
functions (raising `ValueError`) return `Except Err`.
-/

namespace Boxing

/-- Error values raised by the source (`ValueError` and friends), refined by the
kind of failure each raise site reports; the message is the source's format
string (quote characters around interpolated names elided). -/
inductive Err where
  | validation (msg : String)
  | notFound (msg : String)
  | conflict (msg : String)
  | capacity (msg : String)
  | precond (msg : String)
  | dependency (msg : String)
  deriving Repr, DecidableEq

/-- One row of the `boxers` table: the columns named by the source's SELECT and
UPDATE statements (`id, name, weight, height, reach, age, fights, wins`). -/
structure BoxerRow where
  id : Nat
  name : String
  weight : Int
  height : Int
  reach : ℚ
  age : Int
  fights : Int
  wins : Int
  deriving Repr, DecidableEq

/-- The Competitor Store: the `boxers` table as an ordered list of rows, plus
the next rowid the store will assign on insert. -/
structure Db where
  rows : List BoxerRow
  nextId : Nat
  deriving Repr, DecidableEq

/-- `get_weight_class` from `boxers_model.py`: cascading thresholds 203 / 166 /
133 / 125, raising `ValueError` below 125. -/
def get_weight_class (weight : Int) : Except Err String :=
  if weight ≥ 203 then .ok "HEAVYWEIGHT"
  else if weight ≥ 166 then .ok "MIDDLEWEIGHT"
  else if weight ≥ 133 then .ok "LIGHTWEIGHT"
  else if weight ≥ 125 then .ok "FEATHERWEIGHT"
  else .error (.validation s!"Invalid weight: {weight}. Weight must be at least 125.")

/-- `create_boxer` from `boxers_model.py`: validates the four bounds in source
order, then checks the name for a collision (`SELECT 1 FROM boxers WHERE
name = ?`), then inserts.  The INSERT names only
`(name, weight, height, reach, age)`; fights = 0 and wins = 0 come from the
table defaults.  Modelled from the spec: the `boxers` schema (not under
`src/`) defaults `fights` and `wins` to 0 and assigns the next rowid.  The
Python function is annotated `-> None` and has no return statement, so the
value handed back to the caller is modelled as the `Option Nat` payload
`none` (never an id). -/
def create_boxer (db : Db) (name : String) (weight : Int) (height : Int)
    (reach : ℚ) (age : Int) : Except Err (Db × Option Nat) :=
  if weight < 125 then
    .error (.validation s!"Invalid weight: {weight}. Must be at least 125.")
  else if height ≤ 0 then
    .error (.validation s!"Invalid height: {height}. Must be greater than 0.")
  else if reach ≤ 0 then
    .error (.validation "Invalid reach: must be greater than 0.")
  else if ¬ (18 ≤ age ∧ age ≤ 40) then
    .error (.validation s!"Invalid age: {age}. Must be between 18 and 40.")
  else if (db.rows.find? (fun r => r.name = name)).isSome then
    .error (.conflict s!"Boxer with name {name} already exists")
  else
    .ok (⟨db.rows ++ [⟨db.nextId, name, weight, height, reach, age, 0, 0⟩],
          db.nextId + 1⟩, none)

/-- `update_boxer_stats` from `boxers_model.py`: rejects a result outside
`{win, loss}`, then rejects an absent id (`SELECT id FROM boxers WHERE
id = ?`), then runs the matching UPDATE (`fights = fights + 1`, and also
`wins = wins + 1` on a win) over every row with that id. -/
def update_boxer_stats (db : Db) (boxer_id : Nat) (result : String) : Except Err Db :=
  if ¬ (result = "win" ∨ result = "loss") then
    .error (.validation s!"Invalid result: {result}. Expected win or loss.")
  else if (db.rows.find? (fun r => r.id = boxer_id)).isNone then
    .error (.notFound s!"Boxer with ID {boxer_id} not found.")
  else
    .ok ⟨db.rows.map (fun r =>
          if r.id = boxer_id then
            if result = "win" then
              { r with fights := r.fights + 1, wins := r.wins + 1 }
            else
              { r with fights := r.fights + 1 }
          else r),
        db.nextId⟩

/-- Point lookup of a competitor's `(fights, wins)` pair, the observable the
stats-update claims are stated through. -/
def getStats (db : Db) (boxer_id : Nat) : Option (Int × Int) :=
  (db.rows.find? (fun r => r.id = boxer_id)).map (fun r => (r.fights, r.wins))

/-- The raw win ratio `wins * 1.0 / fights` the leaderboard query computes as
its `win_pct` column. -/
def raw_win_pct (r : BoxerRow) : ℚ := (r.wins : ℚ) / (r.fights : ℚ)

/-- Python's `round(x, 1)`: round to one decimal place (modelled with
round-half-up on `ℚ`; the claims do not depend on the tie direction). -/
def round1 (q : ℚ) : ℚ := (round (q * 10) : ℤ) / 10

/-- One leaderboard entry, with the fields the source dict carries. -/
structure Entry where
  id : Nat
  name : String
  weight : Int
  height : Int
  reach : ℚ
  age : Int
  weight_class : String
  fights : Int
  wins : Int
  win_pct : ℚ
  deriving Repr, DecidableEq

/-- The per-row dict built by `get_leaderboard`'s loop: recomputes the weight
class from the stored weight (which can raise below 125) and reports
`round(win_pct * 100, 1)`. -/
def toEntry (r : BoxerRow) : Except Err Entry := do
  let wc ← get_weight_class r.weight
  pure ⟨r.id, r.name, r.weight, r.height, r.reach, r.age, wc, r.fights, r.wins,
        round1 (raw_win_pct r * 100)⟩

/-- `ORDER BY win_pct DESC`: descending raw win ratio. -/
def pctGe (x y : BoxerRow) : Prop := raw_win_pct y ≤ raw_win_pct x

/-- `ORDER BY wins DESC`: descending wins. -/
def winsGe (x y : BoxerRow) : Prop := y.wins ≤ x.wins

instance : DecidableRel pctGe :=
  fun x y => inferInstanceAs (Decidable (raw_win_pct y ≤ raw_win_pct x))

instance : DecidableRel winsGe :=
  fun x y => inferInstanceAs (Decidable (y.wins ≤ x.wins))

instance : IsTotal BoxerRow pctGe := ⟨fun a b => le_total (raw_win_pct b) (raw_win_pct a)⟩

instance : IsTrans BoxerRow pctGe := ⟨fun _ _ _ h1 h2 => le_trans h2 h1⟩

instance : IsTotal BoxerRow winsGe := ⟨fun a b => le_total b.wins a.wins⟩

instance : IsTrans BoxerRow winsGe := ⟨fun _ _ _ h1 h2 => le_trans h2 h1⟩

/-- `get_leaderboard` from `boxers_model.py`: the query keeps rows with
`fights > 0` and orders them by the chosen key (an invalid `sort_by` raises
before the query runs); the loop then builds one entry per returned row.
`ORDER BY ... DESC` is modelled by `insertionSort` with the corresponding
descending relation. -/
def get_leaderboard (db : Db) (sort_by : String) : Except Err (List Entry) :=
  if sort_by = "win_pct" then
    (List.insertionSort pctGe (db.rows.filter (fun r => 0 < r.fights))).mapM toEntry
  else if sort_by = "wins" then
    (List.insertionSort winsGe (db.rows.filter (fun r => 0 < r.fights))).mapM toEntry
  else
    .error (.validation s!"Invalid sort_by parameter: {sort_by}")

/-- The `Boxer` dataclass handle the ring holds: `id, name, weight, height,
reach, age`.  The derived `weight_class` field (recomputed from `weight` by
`__post_init__`) is omitted: it is a pure function of `weight` and no claim
reads it from the handle. -/
structure Boxer where
  id : Nat
  name : String
  weight : Int
  height : Int
  reach : ℚ
  age : Int
  deriving Repr, DecidableEq

/-- `RingModel.get_fighting_skill`: `weight * len(name) + reach / 10 +
age_modifier`, with `age_modifier = -1` below 25, `-2` above 35, else 0. -/
def get_fighting_skill (b : Boxer) : ℚ :=
  let age_modifier : ℚ := if b.age < 25 then -1 else if b.age > 35 then -2 else 0
  (b.weight : ℚ) * (b.name.length : ℚ) + b.reach / 10 + age_modifier

/-- The logistic transform `1 / (1 + e ** (-d))` applied by `fight`. -/
noncomputable def logistic (d : ℝ) : ℝ := 1 / (1 + Real.exp (-d))

/-- `fight`'s threshold: the logistic transform of
`delta = abs(skill_1 - skill_2)`. -/
noncomputable def normalized_delta (s1 s2 : ℚ) : ℝ := logistic |(s1 : ℝ) - (s2 : ℝ)|

/-- The state a `RingModel` instance closes over: its ring (at most two
handles), the shared store, and the Randomness Source modelled as the stream
of values `get_random` will return. -/
structure Sys where
  ring : List Boxer
  db : Db
  supply : List ℝ

/-- `RingModel.enter_ring`: rejects a third occupant (`len(self.ring) >= 2`)
without touching the ring, otherwise appends.  (The Python `isinstance`
guard is subsumed by the argument's type.) -/
def enter_ring (s : Sys) (b : Boxer) : Except Err Unit × Sys :=
  if s.ring.length ≥ 2 then
    (.error (.capacity "Ring is full, cannot add more boxers."), s)
  else
    (.ok (), { s with ring := s.ring ++ [b] })

/-- `RingModel.clear_ring`: empties the ring; on an already-empty ring it only
logs, so the ring is `[]` afterwards either way. -/
def clear_ring (s : Sys) : Sys := { s with ring := [] }

/-- `RingModel.fight`: precondition check (`len < 2` raises before anything
else), two-element unpack, skill and threshold computation, one draw from
the Randomness Source, winner selection by `random_number < normalized_delta`
with `boxer_1` the first-admitted handle, the two `update_boxer_stats` calls
(a failure of either propagates, leaving the ring unchanged and the first
update persisted), then clear and return of the winner's name.  An empty
supply models `get_random` raising. -/
noncomputable def fight (s : Sys) : Except Err String × Sys :=
  if s.ring.length < 2 then
    (.error (.precond "There must be two boxers to start a fight."), s)
  else
    match s.ring with
    | [boxer_1, boxer_2] =>
      let skill_1 := get_fighting_skill boxer_1
      let skill_2 := get_fighting_skill boxer_2
      match s.supply with
      | [] => (.error (.dependency "Request to random.org failed"), s)
      | random_number :: rest =>
        let winner := if random_number < normalized_delta skill_1 skill_2
                      then boxer_1 else boxer_2
        let loser := if random_number < normalized_delta skill_1 skill_2
                     then boxer_2 else boxer_1
        match update_boxer_stats s.db winner.id "win" with
        | .error e => (.error e, { s with supply := rest })
        | .ok db1 =>
          match update_boxer_stats db1 loser.id "loss" with
          | .error e => (.error e, { s with db := db1, supply := rest })
          | .ok db2 => (.ok winner.name, ⟨[], db2, rest⟩)
    | _ =>
      -- a ring longer than two would make the Python unpack raise
      (.error (.validation "too many values to unpack (expected 2)"), s)

/-- The states one `RingModel` instance can reach: it starts with an empty
ring, and evolves only through `enter_ring`, `clear_ring` and `fight`. -/
inductive Reachable : Sys → Prop where
  | init (db : Db) (supply : List ℝ) : Reachable ⟨[], db, supply⟩
  | step_enter (s : Sys) (b : Boxer) : Reachable s → Reachable (enter_ring s b).2
  | step_clear (s : Sys) : Reachable s → Reachable (clear_ring s)
  | step_fight (s : Sys) : Reachable s → Reachable (fight s).2

/-- The registry invariant `wins ≤ fights`, row by row. -/
def statsOk (db : Db) : Prop := ∀ r ∈ db.rows, r.wins ≤ r.fights

instance (db : Db) : Decidable (statsOk db) :=
  inferInstanceAs (Decidable (∀ r ∈ db.rows, r.wins ≤ r.fights))

/-- The skill formula exactly as the spec words it (`weight × (character
length of name) + reach/10 + ageModifier`), to be compared with the
source-derived `get_fighting_skill`. -/
def spec_skill (b : Boxer) : ℚ :=
  let ageModifier : ℚ := if b.age < 25 then -1 else if b.age > 35 then -2 else 0
  (b.weight : ℚ) * (b.name.length : ℚ) + b.reach / 10 + ageModifier

/-- The leaderboard entry built for a row whose stored weight is valid
(≥ 125), as a total function: used to describe `get_leaderboard`'s output. -/
def entryTotal (r : BoxerRow) : Entry :=
  ⟨r.id, r.name, r.weight, r.height, r.reach, r.age,
   (get_weight_class r.weight).toOption.getD "", r.fights, r.wins,
   round1 (raw_win_pct r * 100)⟩

/-- The identity-and-stats projection of an entry, for stating which
competitors the leaderboard contains. -/
def entryKey (e : Entry) : Nat × String × Int × Int := (e.id, e.name, e.fights, e.wins)

/-- The identity-and-stats projection of a stored row. -/
def rowKey (r : BoxerRow) : Nat × String × Int × Int := (r.id, r.name, r.fights, r.wins)

/-- Descending raw win ratio between two leaderboard entries, recomputed from
their wins and fights fields (the ratio before rounding). -/
def entryPctGe (x y : Entry) : Prop :=
  (y.wins : ℚ) / (y.fights : ℚ) ≤ (x.wins : ℚ) / (x.fights : ℚ)

/-- Every entry reports `wins/fights × 100` rounded to one decimal place. -/
def pctsRounded (es : List Entry) : Prop :=
  ∀ e ∈ es, e.win_pct = round1 ((e.wins : ℚ) / (e.fights : ℚ) * 100)

/-! ### Helper lemmas about `update_boxer_stats` -/

lemma find?_map_of_id_eq (rows : List BoxerRow) (f : BoxerRow → BoxerRow)
    (hf : ∀ r, (f r).id = r.id) (j : Nat) :
    (rows.map f).find? (fun r => r.id = j) =
      (rows.find? (fun r => r.id = j)).map f := by
  have hp : ((fun r : BoxerRow => decide (r.id = j)) ∘ f) =
      (fun r : BoxerRow => decide (r.id = j)) := by
    funext r
    simp [Function.comp, hf]
  rw [List.find?_map, hp]

/-- The row-updating function the success branch of `update_boxer_stats`
maps over the table. -/
def updRow (boxer_id : Nat) (result : String) (r : BoxerRow) : BoxerRow :=
  if r.id = boxer_id then
    if result = "win" then
      { r with fights := r.fights + 1, wins := r.wins + 1 }
    else
      { r with fights := r.fights + 1 }
  else r

lemma updRow_id (boxer_id : Nat) (result : String) (r : BoxerRow) :
    (updRow boxer_id result r).id = r.id := by
  unfold updRow
  split_ifs <;> rfl

lemma update_boxer_stats_ok_eq (db : Db) (boxer_id : Nat) (result : String)
    (hres : result = "win" ∨ result = "loss")
    (hid : (db.rows.find? (fun r => r.id = boxer_id)).isSome) :
    update_boxer_stats db boxer_id result =
      .ok ⟨db.rows.map (updRow boxer_id result), db.nextId⟩ := by
  unfold update_boxer_stats
  rw [if_neg (not_not_intro hres)]
  cases hf : db.rows.find? (fun r => r.id = boxer_id) with
  | none => rw [hf] at hid; exact absurd hid (by simp)
  | some r0 =>
    rw [if_neg (by simp)]
    rfl

lemma update_boxer_stats_ok_inv (db : Db) (boxer_id : Nat) (result : String)
    (db' : Db) (h : update_boxer_stats db boxer_id result = .ok db') :
    (result = "win" ∨ result = "loss") ∧
    (db.rows.find? (fun r => r.id = boxer_id)).isSome = true ∧
    db' = ⟨db.rows.map (updRow boxer_id result), db.nextId⟩ := by
  unfold update_boxer_stats at h
  by_cases h1 : result = "win" ∨ result = "loss"
  · rw [if_neg (not_not_intro h1)] at h
    cases hf : db.rows.find? (fun r => r.id = boxer_id) with
    | none =>
      rw [hf, if_pos (by simp)] at h
      exact absurd h (by simp)
    | some r0 =>
      rw [hf, if_neg (by simp)] at h
      injection h with h
      exact ⟨h1, by simp [hf], h.symm⟩
  · rw [if_pos h1] at h
    exact absurd h (by simp)

lemma getStats_eq_none_iff (db : Db) (j : Nat) :
    getStats db j = none ↔ db.rows.find? (fun r => r.id = j) = none := by
  unfold getStats
  cases db.rows.find? (fun r => r.id = j) <;> simp

lemma find?_isSome_of_getStats (db : Db) (j : Nat) (s : Int × Int)
    (h : getStats db j = some s) :
    (db.rows.find? (fun r => r.id = j)).isSome := by
  unfold getStats at h
  cases hf : db.rows.find? (fun r => r.id = j) <;> simp [hf] at h ⊢

lemma getStats_update (db : Db) (boxer_id : Nat) (result : String) (db' : Db)
    (h : update_boxer_stats db boxer_id result = .ok db') (j : Nat) :
    getStats db' j =
      if j = boxer_id then
        (getStats db j).map
          (fun s => (s.1 + 1, s.2 + if result = "win" then 1 else 0))
      else getStats db j := by
  obtain ⟨h1, -, rfl⟩ := update_boxer_stats_ok_inv db boxer_id result db' h
  unfold getStats
  rw [show List.map (updRow boxer_id result) db.rows =
        db.rows.map (updRow boxer_id result) from rfl]
  rw [find?_map_of_id_eq _ _ (updRow_id boxer_id result) j]
  cases hf : db.rows.find? (fun r => r.id = j) with
  | none => split <;> rfl
  | some r0 =>
    have hr0 : r0.id = j := by simpa using List.find?_some hf
    simp only [Option.map_some']
    by_cases hj : j = boxer_id
    · subst hj
      unfold updRow
      rw [if_pos (by simp [hr0])]
      rcases h1 with hw | hl
      · subst hw
        simp
      · subst hl
        rw [if_neg (by decide)]
        simp
    · unfold updRow
      rw [if_neg (by simp [hr0, hj]), if_neg hj]

/-! ### Claim theorems -/

/-- C2: the fighting-skill score equals
`weight × (character length of name) + reach/10 + ageModifier` with
ageModifier −1 below age 25, −2 above 35, else 0; and the boxer
("Ali", 180, reach 74.5, age 28) scores exactly 547.45. -/
theorem fighting_skill_formula :
    (∀ b : Boxer, get_fighting_skill b = spec_skill b) ∧
    get_fighting_skill ⟨1, "Ali", 180, 70, (74.5 : ℚ), 28⟩ = (547.45 : ℚ) := by
  constructor
  · intro b
    rfl
  · norm_num [get_fighting_skill, show ("Ali".length = 3) from rfl]

/-- C5: `get_weight_class` maps [125,133) to FEATHERWEIGHT, [133,166) to
LIGHTWEIGHT, [166,203) to MIDDLEWEIGHT, [203,∞) to HEAVYWEIGHT, and fails
with a validation error below 125. -/
theorem weight_class_spec (w : Int) :
    (125 ≤ w ∧ w < 133 → get_weight_class w = .ok "FEATHERWEIGHT") ∧
    (133 ≤ w ∧ w < 166 → get_weight_class w = .ok "LIGHTWEIGHT") ∧
    (166 ≤ w ∧ w < 203 → get_weight_class w = .ok "MIDDLEWEIGHT") ∧
    (203 ≤ w → get_weight_class w = .ok "HEAVYWEIGHT") ∧
    (w < 125 → get_weight_class w =
      .error (.validation s!"Invalid weight: {w}. Weight must be at least 125.")) := by
  unfold get_weight_class
  refine ⟨?_, ?_, ?_, ?_, ?_⟩ <;> intro h <;> split_ifs <;>
    first | rfl | (exfalso; omega)

/-- Witness for C5 at weights 130, 140, 170, 210 and 100. -/
theorem weight_class_spec_witness :
    get_weight_class 130 = .ok "FEATHERWEIGHT" ∧
    get_weight_class 140 = .ok "LIGHTWEIGHT" ∧
    get_weight_class 170 = .ok "MIDDLEWEIGHT" ∧
    get_weight_class 210 = .ok "HEAVYWEIGHT" ∧
    get_weight_class 100 =
      .error (.validation "Invalid weight: 100. Weight must be at least 125.") :=
  ⟨(weight_class_spec 130).1 (by decide),
   (weight_class_spec 140).2.1 (by decide),
   (weight_class_spec 170).2.2.1 (by decide),
   (weight_class_spec 210).2.2.2.1 (by decide),
   (weight_class_spec 100).2.2.2.2 (by decide)⟩

/-- C4: `update_boxer_stats` rejects a result outside {win, loss} with a
validation error, rejects an absent id with a not-found error, and otherwise
adds one to fights and adds one to wins exactly when the result is "win";
this preserves `wins ≤ fights`. -/
theorem update_boxer_stats_spec (db : Db) (boxer_id : Nat) (result : String) :
    (¬ (result = "win" ∨ result = "loss") →
      update_boxer_stats db boxer_id result =
        .error (.validation s!"Invalid result: {result}. Expected win or loss.")) ∧
    ((result = "win" ∨ result = "loss") → getStats db boxer_id = none →
      update_boxer_stats db boxer_id result =
        .error (.notFound s!"Boxer with ID {boxer_id} not found.")) ∧
    (∀ s : Int × Int, (result = "win" ∨ result = "loss") →
      getStats db boxer_id = some s →
      ∃ db', update_boxer_stats db boxer_id result = .ok db' ∧
        getStats db' boxer_id =
          some (s.1 + 1, s.2 + if result = "win" then 1 else 0)) ∧
    (∀ db', update_boxer_stats db boxer_id result = .ok db' →
      statsOk db → statsOk db') := by
  refine ⟨?_, ?_, ?_, ?_⟩
  · intro h
    unfold update_boxer_stats
    rw [if_pos h]
  · intro hres hnone
    unfold update_boxer_stats
    rw [if_neg (not_not_intro hres),
        (getStats_eq_none_iff db boxer_id).mp hnone, if_pos (by simp)]
  · intro s hres hsome
    have hid := find?_isSome_of_getStats db boxer_id s hsome
    refine ⟨_, update_boxer_stats_ok_eq db boxer_id result hres hid, ?_⟩
    rw [getStats_update db boxer_id result _
      (update_boxer_stats_ok_eq db boxer_id result hres hid) boxer_id,
      if_pos rfl, hsome]
    rfl
  · intro db' h hok
    obtain ⟨h1, -, rfl⟩ := update_boxer_stats_ok_inv db boxer_id result db' h
    intro r hr
    rcases List.mem_map.mp hr with ⟨r0, hr0, hfr0⟩
    subst hfr0
    have := hok r0 hr0
    unfold updRow
    split_ifs <;> simp <;> omega

/-- Witness for C4: a one-row store with fights = 3, wins = 2; a "draw" result
is rejected, id 5 is unknown, a "win" moves the stats to (4, 3), and
`wins ≤ fights` still holds afterwards. -/
theorem update_boxer_stats_spec_witness :
    update_boxer_stats ⟨[⟨1, "Ali", 210, 70, 74, 28, 3, 2⟩], 2⟩ 1 "draw" =
      .error (.validation "Invalid result: draw. Expected win or loss.") ∧
    update_boxer_stats ⟨[⟨1, "Ali", 210, 70, 74, 28, 3, 2⟩], 2⟩ 5 "win" =
      .error (.notFound "Boxer with ID 5 not found.") ∧
    (∃ db', update_boxer_stats ⟨[⟨1, "Ali", 210, 70, 74, 28, 3, 2⟩], 2⟩ 1 "win" =
      .ok db' ∧ getStats db' 1 = some (4, 3)) ∧
    statsOk ⟨[⟨1, "Ali", 210, 70, 74, 28, 4, 3⟩], 2⟩ :=
  ⟨(update_boxer_stats_spec ⟨[⟨1, "Ali", 210, 70, 74, 28, 3, 2⟩], 2⟩ 1 "draw").1
      (by decide),
   (update_boxer_stats_spec ⟨[⟨1, "Ali", 210, 70, 74, 28, 3, 2⟩], 2⟩ 5 "win").2.1
      (Or.inl rfl) (by rfl),
   (update_boxer_stats_spec ⟨[⟨1, "Ali", 210, 70, 74, 28, 3, 2⟩], 2⟩ 1 "win").2.2.1
      (3, 2) (Or.inl rfl) (by rfl),
   (update_boxer_stats_spec ⟨[⟨1, "Ali", 210, 70, 74, 28, 3, 2⟩], 2⟩ 1 "win").2.2.2
      ⟨[⟨1, "Ali", 210, 70, 74, 28, 4, 3⟩], 2⟩ (by rfl) (by decide)⟩

/-- C8: `create_boxer` rejects out-of-range weight, height, reach and age with
a validation error naming the offending field (checked in source order), and
rejects a name collision with a conflict error; an error return carries no
new store state, so nothing is inserted. -/
theorem create_boxer_invalid_spec (db : Db) (name : String) (weight : Int)
    (height : Int) (reach : ℚ) (age : Int) :
    (weight < 125 → create_boxer db name weight height reach age =
      .error (.validation s!"Invalid weight: {weight}. Must be at least 125.")) ∧
    (125 ≤ weight → height ≤ 0 → create_boxer db name weight height reach age =
      .error (.validation s!"Invalid height: {height}. Must be greater than 0.")) ∧
    (125 ≤ weight → 0 < height → reach ≤ 0 →
      create_boxer db name weight height reach age =
        .error (.validation "Invalid reach: must be greater than 0.")) ∧
    (125 ≤ weight → 0 < height → 0 < reach → ¬ (18 ≤ age ∧ age ≤ 40) →
      create_boxer db name weight height reach age =
        .error (.validation s!"Invalid age: {age}. Must be between 18 and 40.")) ∧
    (125 ≤ weight → 0 < height → 0 < reach → (18 ≤ age ∧ age ≤ 40) →
      (db.rows.find? (fun r => r.name = name)).isSome →
      create_boxer db name weight height reach age =
        .error (.conflict s!"Boxer with name {name} already exists")) := by
  unfold create_boxer
  refine ⟨?_, ?_, ?_, ?_, ?_⟩
  · intro h1
    rw [if_pos h1]
  · intro h1 h2
    rw [if_neg (not_lt.mpr h1), if_pos h2]
  · intro h1 h2 h3
    rw [if_neg (not_lt.mpr h1), if_neg (not_le.mpr h2), if_pos h3]
  · intro h1 h2 h3 h4
    rw [if_neg (not_lt.mpr h1), if_neg (not_le.mpr h2), if_neg (not_le.mpr h3),
        if_pos h4]
  · intro h1 h2 h3 h4 h5
    rw [if_neg (not_lt.mpr h1), if_neg (not_le.mpr h2), if_neg (not_le.mpr h3),
        if_neg (not_not_intro h4), if_pos h5]

/-- Witness for C8: each rejection at a concrete input. -/
theorem create_boxer_invalid_spec_witness :
    create_boxer ⟨[], 1⟩ "Bob" 100 70 74 28 =
      .error (.validation "Invalid weight: 100. Must be at least 125.") ∧
    create_boxer ⟨[], 1⟩ "Bob" 210 0 74 28 =
      .error (.validation "Invalid height: 0. Must be greater than 0.") ∧
    create_boxer ⟨[], 1⟩ "Bob" 210 70 (-1) 28 =
      .error (.validation "Invalid reach: must be greater than 0.") ∧
    create_boxer ⟨[], 1⟩ "Bob" 210 70 74 50 =
      .error (.validation "Invalid age: 50. Must be between 18 and 40.") ∧
    create_boxer ⟨[⟨1, "Ali", 210, 70, 74, 28, 0, 0⟩], 2⟩ "Ali" 210 70 74 28 =
      .error (.conflict "Boxer with name Ali already exists") :=
  ⟨(create_boxer_invalid_spec ⟨[], 1⟩ "Bob" 100 70 74 28).1 (by decide),
   (create_boxer_invalid_spec ⟨[], 1⟩ "Bob" 210 0 74 28).2.1 (by decide) (by decide),
   (create_boxer_invalid_spec ⟨[], 1⟩ "Bob" 210 70 (-1) 28).2.2.1
      (by decide) (by decide) (by decide),
   (create_boxer_invalid_spec ⟨[], 1⟩ "Bob" 210 70 74 50).2.2.2.1
      (by decide) (by decide) (by decide) (by decide),
   (create_boxer_invalid_spec ⟨[⟨1, "Ali", 210, 70, 74, 28, 0, 0⟩], 2⟩
      "Ali" 210 70 74 28).2.2.2.2
      (by decide) (by decide) (by decide) (by decide) (by rfl)⟩

/-- Counterexample for C7: on a valid, non-colliding input the source's
`create_boxer` does persist a fresh record (fights = 0, wins = 0, assigned
id 1 here), but it is annotated `-> None` and returns no value, so the
caller never receives the assigned id: the returned payload is `none`, not
`some 1`. -/
theorem create_boxer_no_id_cex :
    create_boxer ⟨[], 1⟩ "Ali" 210 70 74 28 =
      .ok (⟨[⟨1, "Ali", 210, 70, 74, 28, 0, 0⟩], 2⟩, none) ∧
    ¬ create_boxer ⟨[], 1⟩ "Ali" 210 70 74 28 =
      .ok (⟨[⟨1, "Ali", 210, 70, 74, 28, 0, 0⟩], 2⟩, some 1) := by
  refine ⟨rfl, fun h => ?_⟩
  rw [show create_boxer ⟨[], 1⟩ "Ali" 210 70 74 28 =
    .ok (⟨[⟨1, "Ali", 210, 70, 74, 28, 0, 0⟩], 2⟩, none) from rfl] at h
  simp at h

/-- C7 as amended: for every valid, non-colliding input `create_boxer`
succeeds and persists a new record with fights = 0 and wins = 0 under the
store-assigned id, but hands nothing (`none`, the Python `None`) back to the
caller rather than the assigned id. -/
theorem create_boxer_ok_spec (db : Db) (name : String) (weight : Int)
    (height : Int) (reach : ℚ) (age : Int)
    (hw : 125 ≤ weight) (hh : 0 < height) (hr : 0 < reach)
    (ha : 18 ≤ age ∧ age ≤ 40)
    (hn : db.rows.find? (fun r => r.name = name) = none) :
    create_boxer db name weight height reach age =
      .ok (⟨db.rows ++ [⟨db.nextId, name, weight, height, reach, age, 0, 0⟩],
            db.nextId + 1⟩, none) := by
  unfold create_boxer
  rw [if_neg (not_lt.mpr hw), if_neg (not_le.mpr hh), if_neg (not_le.mpr hr),
      if_neg (not_not_intro ha), if_neg (by simp [hn])]

/-- Witness for the amended C7 at a concrete input. -/
theorem create_boxer_ok_spec_witness :
    create_boxer ⟨[], 1⟩ "Bob" 210 70 74 28 =
      .ok (⟨[⟨1, "Bob", 210, 70, 74, 28, 0, 0⟩], 2⟩, none) :=
  create_boxer_ok_spec ⟨[], 1⟩ "Bob" 210 70 74 28
    (by decide) (by decide) (by decide) (by decide) rfl

/-- C9: the win threshold is at least one half for every pair of boxers
(the transform is applied to the absolute skill gap), and the logistic
transform is strictly increasing in the gap. -/
theorem threshold_spec :
    (∀ a b : Boxer,
      1 / 2 ≤ normalized_delta (get_fighting_skill a) (get_fighting_skill b)) ∧
    StrictMono logistic := by
  have hmono : StrictMono logistic := by
    intro x y hxy
    unfold logistic
    have h1 : Real.exp (-y) < Real.exp (-x) := Real.exp_lt_exp.mpr (by linarith)
    have h2 : (0 : ℝ) < 1 + Real.exp (-y) := by positivity
    exact one_div_lt_one_div_of_lt h2 (by linarith)
  refine ⟨fun a b => ?_, hmono⟩
  have h0 : logistic 0 = 1 / 2 := by
    unfold logistic
    rw [neg_zero, Real.exp_zero]
    norm_num
  calc (1 : ℝ) / 2 = logistic 0 := h0.symm
    _ ≤ normalized_delta (get_fighting_skill a) (get_fighting_skill b) :=
        hmono.monotone (abs_nonneg _)

/-- Witness for C9: the bound at a concrete pair of boxers, and strict
monotonicity at the gap pair 0 < 1. -/
theorem threshold_spec_witness :
    1 / 2 ≤ normalized_delta (get_fighting_skill ⟨1, "Ali", 180, 70, 74, 28⟩)
      (get_fighting_skill ⟨2, "Bob", 150, 68, 70, 30⟩) ∧
    logistic 0 < logistic 1 :=
  ⟨threshold_spec.1 ⟨1, "Ali", 180, 70, 74, 28⟩ ⟨2, "Bob", 150, 68, 70, 30⟩,
   threshold_spec.2 (by norm_num)⟩

/-- C3: every reachable ring holds at most two boxers; `enter_ring` on a full
ring fails with the capacity error and changes nothing; `fight` on a ring
with fewer than two boxers fails with the precondition error and changes
nothing — in particular the randomness supply is untouched. -/
theorem ring_invariant_spec :
    (∀ s : Sys, Reachable s → s.ring.length ≤ 2) ∧
    (∀ (s : Sys) (b : Boxer), s.ring.length = 2 →
      enter_ring s b =
        (.error (.capacity "Ring is full, cannot add more boxers."), s)) ∧
    (∀ s : Sys, s.ring.length < 2 →
      fight s =
        (.error (.precond "There must be two boxers to start a fight."), s)) := by
  refine ⟨?_, ?_, ?_⟩
  · intro s hs
    induction hs with
    | init db supply => simp
    | step_enter s b hs ih =>
      by_cases h : s.ring.length ≥ 2
      · unfold enter_ring
        rw [if_pos h]
        exact ih
      · unfold enter_ring
        rw [if_neg h]
        simp only [List.length_append, List.length_cons, List.length_nil]
        omega
    | step_clear s hs ih =>
      unfold clear_ring
      simp
    | step_fight s hs ih =>
      by_cases h : s.ring.length < 2
      · unfold fight
        rw [if_pos h]
        exact ih
      · unfold fight
        rw [if_neg h]
        split
        · split
          · exact ih
          · dsimp only
            split
            · exact ih
            · split
              · exact ih
              · simp
        · exact ih
  · intro s b h
    unfold enter_ring
    rw [if_pos (by omega)]
  · intro s h
    unfold fight
    rw [if_pos h]

/-- Witness for C3: the initial state is reachable and within capacity; a full
ring rejects a third boxer unchanged; a one-boxer ring rejects `fight`
unchanged (supply included). -/
theorem ring_invariant_spec_witness :
    (⟨[], ⟨[], 1⟩, []⟩ : Sys).ring.length ≤ 2 ∧
    enter_ring ⟨[⟨1, "Ali", 180, 70, 74, 28⟩, ⟨2, "Bob", 150, 68, 70, 30⟩],
        ⟨[], 1⟩, []⟩ ⟨3, "Cal", 160, 69, 71, 30⟩ =
      (.error (.capacity "Ring is full, cannot add more boxers."),
       ⟨[⟨1, "Ali", 180, 70, 74, 28⟩, ⟨2, "Bob", 150, 68, 70, 30⟩], ⟨[], 1⟩, []⟩) ∧
    fight ⟨[⟨1, "Ali", 180, 70, 74, 28⟩], ⟨[], 1⟩, []⟩ =
      (.error (.precond "There must be two boxers to start a fight."),
       ⟨[⟨1, "Ali", 180, 70, 74, 28⟩], ⟨[], 1⟩, []⟩) :=
  ⟨ring_invariant_spec.1 ⟨[], ⟨[], 1⟩, []⟩ (Reachable.init ⟨[], 1⟩ []),
   ring_invariant_spec.2.1
     ⟨[⟨1, "Ali", 180, 70, 74, 28⟩, ⟨2, "Bob", 150, 68, 70, 30⟩], ⟨[], 1⟩, []⟩
     ⟨3, "Cal", 160, 69, 71, 30⟩ rfl,
   ring_invariant_spec.2.2 ⟨[⟨1, "Ali", 180, 70, 74, 28⟩], ⟨[], 1⟩, []⟩
     (by simp)⟩

lemma fight_cons (a b : Boxer) (db : Db) (r : ℝ) (rest : List ℝ) :
    fight ⟨[a, b], db, r :: rest⟩ =
      (let winner := if r < normalized_delta (get_fighting_skill a)
                          (get_fighting_skill b) then a else b
       let loser := if r < normalized_delta (get_fighting_skill a)
                         (get_fighting_skill b) then b else a
       match update_boxer_stats db winner.id "win" with
       | .error e => (.error e, ⟨[a, b], db, rest⟩)
       | .ok db1 =>
         match update_boxer_stats db1 loser.id "loss" with
         | .error e => (.error e, ⟨[a, b], db1, rest⟩)
         | .ok db2 => (.ok winner.name, ⟨[], db2, rest⟩)) := by
  unfold fight
  rw [if_neg (by simp)]

/-- C1: with boxers `a` then `b` in the ring and a drawn value `r`, `fight`
declares `a` the winner exactly when `r` is below the logistic threshold and
`b` otherwise, records a win for the winner and a loss for the loser,
empties the ring (consuming exactly the one draw), and returns the winner's
name. -/
theorem fight_spec (a b : Boxer) (db : Db) (sa sb : Int × Int) (r : ℝ)
    (rest : List ℝ) (hab : a.id ≠ b.id)
    (ha : getStats db a.id = some sa) (hb : getStats db b.id = some sb) :
    ∃ db2,
      fight ⟨[a, b], db, r :: rest⟩ =
        (.ok (if r < normalized_delta (get_fighting_skill a)
                   (get_fighting_skill b) then a.name else b.name),
         ⟨[], db2, rest⟩) ∧
      (if r < normalized_delta (get_fighting_skill a) (get_fighting_skill b) then
        getStats db2 a.id = some (sa.1 + 1, sa.2 + 1) ∧
        getStats db2 b.id = some (sb.1 + 1, sb.2)
      else
        getStats db2 a.id = some (sa.1 + 1, sa.2) ∧
        getStats db2 b.id = some (sb.1 + 1, sb.2 + 1)) := by
  by_cases hr : r < normalized_delta (get_fighting_skill a) (get_fighting_skill b)
  · have hwin := update_boxer_stats_ok_eq db a.id "win" (Or.inl rfl)
      (find?_isSome_of_getStats db a.id sa ha)
    have hsa1 : getStats ⟨db.rows.map (updRow a.id "win"), db.nextId⟩ a.id =
        some (sa.1 + 1, sa.2 + 1) := by
      have h := getStats_update db a.id "win" _ hwin a.id
      rw [if_pos rfl, ha] at h
      simpa using h
    have hsb1 : getStats ⟨db.rows.map (updRow a.id "win"), db.nextId⟩ b.id =
        some sb := by
      have h := getStats_update db a.id "win" _ hwin b.id
      rw [if_neg (by omega)] at h
      exact h.trans hb
    have hloss := update_boxer_stats_ok_eq
      ⟨db.rows.map (updRow a.id "win"), db.nextId⟩ b.id "loss" (Or.inr rfl)
      (find?_isSome_of_getStats _ b.id sb hsb1)
    refine ⟨⟨(db.rows.map (updRow a.id "win")).map (updRow b.id "loss"),
             db.nextId⟩, ?_, ?_⟩
    · rw [fight_cons]
      dsimp only
      simp only [if_pos hr]
      rw [hwin]
      dsimp only
      rw [hloss]
    · rw [if_pos hr]
      constructor
      · have h := getStats_update ⟨db.rows.map (updRow a.id "win"), db.nextId⟩
          b.id "loss" _ hloss a.id
        rw [if_neg (by omega)] at h
        exact h.trans hsa1
      · have h := getStats_update ⟨db.rows.map (updRow a.id "win"), db.nextId⟩
          b.id "loss" _ hloss b.id
        rw [if_pos rfl, hsb1] at h
        simpa using h
  · have hwin := update_boxer_stats_ok_eq db b.id "win" (Or.inl rfl)
      (find?_isSome_of_getStats db b.id sb hb)
    have hsb1 : getStats ⟨db.rows.map (updRow b.id "win"), db.nextId⟩ b.id =
        some (sb.1 + 1, sb.2 + 1) := by
      have h := getStats_update db b.id "win" _ hwin b.id
      rw [if_pos rfl, hb] at h
      simpa using h
    have hsa1 : getStats ⟨db.rows.map (updRow b.id "win"), db.nextId⟩ a.id =
        some sa := by
      have h := getStats_update db b.id "win" _ hwin a.id
      rw [if_neg (by omega)] at h
      exact h.trans ha
    have hloss := update_boxer_stats_ok_eq
      ⟨db.rows.map (updRow b.id "win"), db.nextId⟩ a.id "loss" (Or.inr rfl)
      (find?_isSome_of_getStats _ a.id sa hsa1)
    refine ⟨⟨(db.rows.map (updRow b.id "win")).map (updRow a.id "loss"),
             db.nextId⟩, ?_, ?_⟩
    · rw [fight_cons]
      dsimp only
      simp only [if_neg hr]
      rw [hwin]
      dsimp only
      rw [hloss]
    · rw [if_neg hr]
      constructor
      · have h := getStats_update ⟨db.rows.map (updRow b.id "win"), db.nextId⟩
          a.id "loss" _ hloss a.id
        rw [if_pos rfl, hsa1] at h
        simpa using h
      · have h := getStats_update ⟨db.rows.map (updRow b.id "win"), db.nextId⟩
          a.id "loss" _ hloss b.id
        rw [if_neg (by omega)] at h
        exact h.trans hsb1

/-- Witness for C1: two distinct boxers with equal skills, draw r = 0; the
winner is the one the threshold comparison picks, the ring empties, the
draw is consumed, and the stats move as claimed. -/
theorem fight_spec_witness :
    (⟨1, "Ali", 180, 70, 74, 28⟩ : Boxer).id ≠
      (⟨2, "Bob", 180, 70, 74, 28⟩ : Boxer).id ∧
    ∃ db2,
      fight ⟨[⟨1, "Ali", 180, 70, 74, 28⟩, ⟨2, "Bob", 180, 70, 74, 28⟩],
             ⟨[⟨1, "Ali", 180, 70, 74, 28, 0, 0⟩,
               ⟨2, "Bob", 180, 70, 74, 28, 5, 3⟩], 3⟩, [(0 : ℝ)]⟩ =
        (.ok (if (0 : ℝ) < normalized_delta
                (get_fighting_skill ⟨1, "Ali", 180, 70, 74, 28⟩)
                (get_fighting_skill ⟨2, "Bob", 180, 70, 74, 28⟩)
              then "Ali" else "Bob"),
         ⟨[], db2, []⟩) ∧
      (if (0 : ℝ) < normalized_delta
            (get_fighting_skill ⟨1, "Ali", 180, 70, 74, 28⟩)
            (get_fighting_skill ⟨2, "Bob", 180, 70, 74, 28⟩) then
        getStats db2 1 = some (1, 1) ∧ getStats db2 2 = some (6, 3)
      else
        getStats db2 1 = some (1, 0) ∧ getStats db2 2 = some (6, 4)) :=
  ⟨by decide,
   fight_spec ⟨1, "Ali", 180, 70, 74, 28⟩ ⟨2, "Bob", 180, 70, 74, 28⟩
     ⟨[⟨1, "Ali", 180, 70, 74, 28, 0, 0⟩, ⟨2, "Bob", 180, 70, 74, 28, 5, 3⟩], 3⟩
     (0, 0) (5, 3) 0 [] (by decide) rfl rfl⟩

/-- C10: `enter_ring` does no duplicate check — the same boxer can occupy both
slots — and the resulting `fight` credits that boxer with both the win and
the loss: fights up by 2, wins up by 1, whatever the draw. -/
theorem duplicate_entry_spec (b : Boxer) (db : Db) (s : Int × Int) (r : ℝ)
    (rest : List ℝ) (hs : getStats db b.id = some s) :
    enter_ring ⟨[], db, r :: rest⟩ b = (.ok (), ⟨[b], db, r :: rest⟩) ∧
    enter_ring ⟨[b], db, r :: rest⟩ b = (.ok (), ⟨[b, b], db, r :: rest⟩) ∧
    ∃ db2, fight ⟨[b, b], db, r :: rest⟩ = (.ok b.name, ⟨[], db2, rest⟩) ∧
      getStats db2 b.id = some (s.1 + 2, s.2 + 1) := by
  refine ⟨?_, ?_, ?_⟩
  · unfold enter_ring
    rw [if_neg (by simp)]
    rfl
  · unfold enter_ring
    rw [if_neg (by simp)]
    rfl
  · have hwin := update_boxer_stats_ok_eq db b.id "win" (Or.inl rfl)
      (find?_isSome_of_getStats db b.id s hs)
    have hs1 : getStats ⟨db.rows.map (updRow b.id "win"), db.nextId⟩ b.id =
        some (s.1 + 1, s.2 + 1) := by
      have h := getStats_update db b.id "win" _ hwin b.id
      rw [if_pos rfl, hs] at h
      simpa using h
    have hloss := update_boxer_stats_ok_eq
      ⟨db.rows.map (updRow b.id "win"), db.nextId⟩ b.id "loss" (Or.inr rfl)
      (find?_isSome_of_getStats _ b.id _ hs1)
    refine ⟨⟨(db.rows.map (updRow b.id "win")).map (updRow b.id "loss"),
             db.nextId⟩, ?_, ?_⟩
    · rw [fight_cons]
      dsimp only
      simp only [ite_self]
      rw [hwin]
      dsimp only
      rw [hloss]
    · have h := getStats_update ⟨db.rows.map (updRow b.id "win"), db.nextId⟩
        b.id "loss" _ hloss b.id
      rw [if_pos rfl, hs1] at h
      rw [h]
      simp only [Option.map_some', Option.some.injEq, Prod.mk.injEq,
        show (if ("loss" : String) = "win" then (1 : ℤ) else 0) = 0 from rfl]
      constructor <;> omega

lemma toEntry_eq (r : BoxerRow) (hw : 125 ≤ r.weight) :
    toEntry r = .ok (entryTotal r) := by
  unfold toEntry entryTotal get_weight_class
  split_ifs <;> first | rfl | (exfalso; omega)

lemma mapM_toEntry (l : List BoxerRow) (hw : ∀ r ∈ l, 125 ≤ r.weight) :
    l.mapM toEntry = .ok (l.map entryTotal) := by
  induction l with
  | nil => rfl
  | cons a t ih =>
    rw [List.mapM_cons, toEntry_eq a (hw a (List.mem_cons_self a t)),
        ih (fun r hr => hw r (List.mem_cons_of_mem a hr))]
    rfl

/-- C6: `get_leaderboard` rejects an unrecognized sort key with a validation
error; for a store of validly-stored rows, sorting by win percentage returns
exactly the competitors with fights > 0, ordered descending by the raw
ratio wins/fights, each reporting `wins/fights × 100` rounded to one
decimal; sorting by wins also returns exactly the competitors with
fights > 0. -/
theorem get_leaderboard_spec (db : Db) (key : String) :
    (key ≠ "wins" ∧ key ≠ "win_pct" →
      get_leaderboard db key =
        .error (.validation s!"Invalid sort_by parameter: {key}")) ∧
    ((∀ r ∈ db.rows, 125 ≤ r.weight) →
      ∃ es, get_leaderboard db "win_pct" = .ok es ∧
        (es.map entryKey).Perm
          ((db.rows.filter (fun r => 0 < r.fights)).map rowKey) ∧
        es.Pairwise entryPctGe ∧ pctsRounded es) ∧
    ((∀ r ∈ db.rows, 125 ≤ r.weight) →
      ∃ es, get_leaderboard db "wins" = .ok es ∧
        (es.map entryKey).Perm
          ((db.rows.filter (fun r => 0 < r.fights)).map rowKey)) := by
  refine ⟨?_, ?_, ?_⟩
  · rintro ⟨h1, h2⟩
    unfold get_leaderboard
    rw [if_neg h2, if_neg h1]
  · intro hw
    have hw' : ∀ r ∈ List.insertionSort pctGe
        (db.rows.filter (fun r => 0 < r.fights)), 125 ≤ r.weight := by
      intro r hr
      exact hw r (List.mem_filter.mp ((List.mem_insertionSort pctGe).mp hr)).1
    refine ⟨(List.insertionSort pctGe
      (db.rows.filter (fun r => 0 < r.fights))).map entryTotal, ?_, ?_, ?_, ?_⟩
    · unfold get_leaderboard
      rw [if_pos rfl, mapM_toEntry _ hw']
    · rw [List.map_map, show entryKey ∘ entryTotal = rowKey from rfl]
      exact (List.perm_insertionSort pctGe _).map rowKey
    · exact List.Pairwise.map entryTotal (fun x y h => h)
        (List.sorted_insertionSort pctGe _)
    · intro e he
      rcases List.mem_map.mp he with ⟨r0, -, rfl⟩
      rfl
  · intro hw
    have hw' : ∀ r ∈ List.insertionSort winsGe
        (db.rows.filter (fun r => 0 < r.fights)), 125 ≤ r.weight := by
      intro r hr
      exact hw r (List.mem_filter.mp ((List.mem_insertionSort winsGe).mp hr)).1
    refine ⟨(List.insertionSort winsGe
      (db.rows.filter (fun r => 0 < r.fights))).map entryTotal, ?_, ?_⟩
    · unfold get_leaderboard
      rw [if_neg (by decide), if_pos rfl, mapM_toEntry _ hw']
    · rw [List.map_map, show entryKey ∘ entryTotal = rowKey from rfl]
      exact (List.perm_insertionSort winsGe _).map rowKey

/-- Witness for C6: three stored competitors, one with zero fights; an unknown
key is rejected, and both orderings include exactly the two with fights. -/
theorem get_leaderboard_spec_witness :
    get_leaderboard ⟨[⟨1, "A", 210, 70, 1, 28, 10, 8⟩,
        ⟨2, "B", 210, 70, 1, 28, 12, 9⟩, ⟨3, "C", 210, 70, 1, 28, 0, 0⟩], 4⟩
        "alpha" =
      .error (.validation "Invalid sort_by parameter: alpha") ∧
    (∃ es, get_leaderboard ⟨[⟨1, "A", 210, 70, 1, 28, 10, 8⟩,
        ⟨2, "B", 210, 70, 1, 28, 12, 9⟩, ⟨3, "C", 210, 70, 1, 28, 0, 0⟩], 4⟩
        "win_pct" = .ok es ∧
      (es.map entryKey).Perm
        ((((⟨[⟨1, "A", 210, 70, 1, 28, 10, 8⟩, ⟨2, "B", 210, 70, 1, 28, 12, 9⟩,
            ⟨3, "C", 210, 70, 1, 28, 0, 0⟩], 4⟩ : Db)).rows.filter
          (fun r => 0 < r.fights)).map rowKey) ∧
      es.Pairwise entryPctGe ∧ pctsRounded es) ∧
    (∃ es, get_leaderboard ⟨[⟨1, "A", 210, 70, 1, 28, 10, 8⟩,
        ⟨2, "B", 210, 70, 1, 28, 12, 9⟩, ⟨3, "C", 210, 70, 1, 28, 0, 0⟩], 4⟩
        "wins" = .ok es ∧
      (es.map entryKey).Perm
        ((((⟨[⟨1, "A", 210, 70, 1, 28, 10, 8⟩, ⟨2, "B", 210, 70, 1, 28, 12, 9⟩,
            ⟨3, "C", 210, 70, 1, 28, 0, 0⟩], 4⟩ : Db)).rows.filter
          (fun r => 0 < r.fights)).map rowKey)) :=
  ⟨(get_leaderboard_spec ⟨[⟨1, "A", 210, 70, 1, 28, 10, 8⟩,
      ⟨2, "B", 210, 70, 1, 28, 12, 9⟩, ⟨3, "C", 210, 70, 1, 28, 0, 0⟩], 4⟩
      "alpha").1 ⟨by decide, by decide⟩,
   (get_leaderboard_spec ⟨[⟨1, "A", 210, 70, 1, 28, 10, 8⟩,
      ⟨2, "B", 210, 70, 1, 28, 12, 9⟩, ⟨3, "C", 210, 70, 1, 28, 0, 0⟩], 4⟩
      "alpha").2.1 (by decide),
   (get_leaderboard_spec ⟨[⟨1, "A", 210, 70, 1, 28, 10, 8⟩,
      ⟨2, "B", 210, 70, 1, 28, 12, 9⟩, ⟨3, "C", 210, 70, 1, 28, 0, 0⟩], 4⟩
      "alpha").2.2 (by decide)⟩

/-- Witness for C10: one boxer with stats (5, 3) admitted twice; after the
fight it has stats (7, 4). -/
theorem duplicate_entry_spec_witness :
    enter_ring ⟨[], ⟨[⟨1, "Ali", 180, 70, 74, 28, 5, 3⟩], 2⟩, [(0 : ℝ)]⟩
        ⟨1, "Ali", 180, 70, 74, 28⟩ =
      (.ok (), ⟨[⟨1, "Ali", 180, 70, 74, 28⟩],
                ⟨[⟨1, "Ali", 180, 70, 74, 28, 5, 3⟩], 2⟩, [(0 : ℝ)]⟩) ∧
    enter_ring ⟨[⟨1, "Ali", 180, 70, 74, 28⟩],
        ⟨[⟨1, "Ali", 180, 70, 74, 28, 5, 3⟩], 2⟩, [(0 : ℝ)]⟩
        ⟨1, "Ali", 180, 70, 74, 28⟩ =
      (.ok (), ⟨[⟨1, "Ali", 180, 70, 74, 28⟩, ⟨1, "Ali", 180, 70, 74, 28⟩],
                ⟨[⟨1, "Ali", 180, 70, 74, 28, 5, 3⟩], 2⟩, [(0 : ℝ)]⟩) ∧
    ∃ db2, fight ⟨[⟨1, "Ali", 180, 70, 74, 28⟩, ⟨1, "Ali", 180, 70, 74, 28⟩],
        ⟨[⟨1, "Ali", 180, 70, 74, 28, 5, 3⟩], 2⟩, [(0 : ℝ)]⟩ =
      (.ok "Ali", ⟨[], db2, []⟩) ∧ getStats db2 1 = some (7, 4) :=
  duplicate_entry_spec ⟨1, "Ali", 180, 70, 74, 28⟩
    ⟨[⟨1, "Ali", 180, 70, 74, 28, 5, 3⟩], 2⟩ (5, 3) 0 [] rfl

end Boxing
